import Mathlib

/-!
Shallow embedding of the entity CRUD + filtered-view core of the
frontend-assignment repository: the `TodoManager` class (todo.js source),
the `BlogManager` class (blog.js source) and the string helpers they use.

Modelling conventions:
* JS strings are Lean `String`s; the JS primitives `trim`, `toLowerCase`,
  `split`, `substring(0, n)` and `includes` are embedded as the
  structurally recursive functions `jsTrim`, `jsToLower`, `splitOnChar`,
  `jsTake` and `jsIncludes` over the character list of the string, so that
  all of them evaluate inside the kernel.
* The external effects are explicit inputs: the clock reads
  `Date.now().toString()` and `new Date().toISOString()` become the
  parameters `now` and `createdAt`; the browser dialog `confirm(...)`
  becomes the boolean parameter `confirmed`; a `localStorage.setItem` call
  that throws (for example on quota) is modelled by the boolean parameter
  `saveThrows`.
* `localStorage` itself is the `storage` field of the manager state: `none`
  when the key is absent, `some l` for a stored serialization of the list
  `l`.  Raw data handed to a load is `Option (Except Unit (List _))`:
  `none` for an absent key, `some (Except.error ())` for stored text on
  which `JSON.parse` throws, `some (Except.ok l)` for text that parses.
* A JS method that can throw is embedded with result type `Except Unit _`;
  a JS method without a `return` statement returns `undefined`, embedded as
  `none` / `Except.ok none`.
* DOM rendering is out of scope; of `renderPostsList` we embed the
  projection (which posts are displayed), and of `showNotification` only
  the message/kind pair where a claim depends on the outcome.
-/

/-- Embedding of the JS string method `trim`: drop leading and trailing
whitespace. -/
def jsTrim (s : String) : String :=
  String.mk (((s.toList.dropWhile Char.isWhitespace).reverse.dropWhile
    Char.isWhitespace).reverse)

/-- Embedding of the JS string method `toLowerCase` (character-wise). -/
def jsToLower (s : String) : String :=
  String.mk (s.toList.map Char.toLower)

/-- Core of the JS string method `split` with a one-character separator:
JS semantics on the empty string gives `[""]`. -/
def splitOnChar (sep : Char) : List Char → List (List Char)
  | [] => [[]]
  | c :: cs =>
    if c = sep then [] :: splitOnChar sep cs
    else
      match splitOnChar sep cs with
      | [] => [[c]]
      | g :: gs => (c :: g) :: gs

/-- Embedding of the JS string method `split(sep)` for a one-character
separator. -/
def jsSplit (s : String) (sep : Char) : List String :=
  (splitOnChar sep s.toList).map String.mk

/-- Embedding of the JS string method `includes`: the pattern occurs as a
contiguous substring. -/
def jsIncludes (s pat : String) : Bool :=
  decide (pat.toList <:+: s.toList)

/-- Embedding of the JS string method `substring(0, n)`. -/
def jsTake (s : String) (n : Nat) : String :=
  String.mk (s.toList.take n)

/-- Notification kinds used by `showNotification` (the `alert-...` CSS
classes of both managers). -/
inductive NotifyKind where
  | success
  | info
  | warning
  | danger
  deriving DecidableEq

/-- One `showNotification(message, type)` outcome. -/
structure Notice where
  message : String
  kind : NotifyKind
  deriving DecidableEq

/-- Todo record, as built by `TodoManager.addTodo`. -/
structure Todo where
  id : String
  text : String
  completed : Bool
  priority : String
  dueDate : String
  createdAt : String
  deriving DecidableEq

/-- State of a `TodoManager`: the in-memory array `this.todos` plus the
durable value persisted under the `todos` key. -/
structure TodoState where
  todos : List Todo
  storage : Option (List Todo)
  deriving DecidableEq

/-- Replace the first element satisfying `p` by its image under `f`; this is
the effect of the `find`/`findIndex`-then-mutate pattern used by
`toggleTodo`, `editTodo` and `updatePost` (only the first match is
touched). -/
def updateFirstP {α : Type} (p : α → Bool) (f : α → α) : List α → List α
  | [] => []
  | x :: xs => if p x then f x :: xs else x :: updateFirstP p f xs

/-- Remove the first element satisfying `p`; this is the effect of the
`findIndex`-then-`splice(idx, 1)` pattern used by `deleteTodo` and
`deletePost`. -/
def removeFirstP {α : Type} (p : α → Bool) : List α → List α
  | [] => []
  | x :: xs => if p x then xs else x :: removeFirstP p xs

/-- `TodoManager.saveTodos`: writes the collection to storage inside a
try/catch, so a throwing `setItem` is swallowed and leaves both the
in-memory array and the previously stored value as they were. -/
def saveTodos (saveThrows : Bool) (s : TodoState) : TodoState :=
  if saveThrows then s else { s with storage := some s.todos }

/-- `TodoManager.loadTodos`: reads and parses the `todos` key inside a
try/catch; an absent key or a `JSON.parse` failure yields `[]`. -/
def loadTodos : Option (Except Unit (List Todo)) → List Todo
  | none => []
  | some (Except.error _) => []
  | some (Except.ok l) => l

/-- `TodoManager.addTodo(text, priority, dueDate)`: builds the record,
unshifts it onto `this.todos`, saves.  The JS method has no `return`
statement, so its value is `undefined` (second component `none`). -/
def addTodo (saveThrows : Bool) (now createdAt text priority dueDate : String)
    (s : TodoState) : TodoState × Option Todo :=
  let todo : Todo :=
    { id := now, text := text, completed := false, priority := priority,
      dueDate := dueDate, createdAt := createdAt }
  (saveTodos saveThrows { s with todos := todo :: s.todos }, none)

/-- Submit handler of the todo form (`bindEvents`): trims the input and
calls `addTodo` only when the trimmed text is non-empty. -/
def submitTodoForm (saveThrows : Bool)
    (now createdAt inputValue priority dueDate : String)
    (s : TodoState) : TodoState :=
  let text := jsTrim inputValue
  if text != "" then (addTodo saveThrows now createdAt text priority dueDate s).1
  else s

/-- `TodoManager.toggleTodo(id)`: flips `completed` on the first record
`find` locates; no-op when the id is absent. -/
def toggleTodo (saveThrows : Bool) (id : String) (s : TodoState) : TodoState :=
  if s.todos.any (fun t => t.id == id) then
    let flipped :=
      updateFirstP (fun t => t.id == id) (fun t => { t with completed := !t.completed }) s.todos
    saveTodos saveThrows { s with todos := flipped }
  else s

/-- `TodoManager.deleteTodo(id)`: splices out the first record whose id
matches; no-op (no save) when the id is absent. -/
def deleteTodo (saveThrows : Bool) (id : String) (s : TodoState) : TodoState :=
  if s.todos.any (fun t => t.id == id) then
    saveTodos saveThrows
      { s with todos := removeFirstP (fun t => t.id == id) s.todos }
  else s

/-- `TodoManager.editTodo(id, newText)`: only acts when the id is found and
`newText.trim()` is truthy (non-empty); stores the trimmed text. -/
def editTodo (saveThrows : Bool) (id newText : String) (s : TodoState) : TodoState :=
  if s.todos.any (fun t => t.id == id) && jsTrim newText != "" then
    let edited :=
      updateFirstP (fun t => t.id == id) (fun t => { t with text := jsTrim newText }) s.todos
    saveTodos saveThrows { s with todos := edited }
  else s

/-- `TodoManager.getFilteredTodos()`: projection of the collection under the
current filter; the switch falls through to the unfiltered copy for `all`
and unknown filters. -/
def getFilteredTodos (currentFilter : String) (todos : List Todo) : List Todo :=
  match currentFilter with
  | "pending" => todos.filter (fun t => !t.completed)
  | "completed" => todos.filter (fun t => t.completed)
  | _ => todos

/-- `TodoManager.clearCompleted()`: with zero completed records it only
shows the informational message and returns; otherwise it asks
`confirm(...)` and, only on an affirmative answer, keeps the non-completed
records and saves, reporting success.  A declined dialog produces no
notification at all. -/
def clearCompleted (saveThrows confirmed : Bool) (s : TodoState) :
    TodoState × Option Notice :=
  let completedCount := (s.todos.filter (fun t => t.completed)).length
  if completedCount = 0 then
    (s, some { message := "No completed todos to clear!", kind := NotifyKind.info })
  else if confirmed then
    (saveTodos saveThrows { s with todos := s.todos.filter (fun t => !t.completed) },
     some { message := toString completedCount ++ " completed todos cleared!",
            kind := NotifyKind.success })
  else (s, none)

/-- Input of one `addTodo` call together with the clock values read during
it (`Date.now().toString()` and `new Date().toISOString()`). -/
structure TodoInput where
  now : String
  createdAt : String
  text : String
  priority : String
  dueDate : String
  deriving DecidableEq

/-- A sequence of `addTodo` calls (persistence succeeding). -/
def addTodos : List TodoInput → TodoState → TodoState
  | [], s => s
  | f :: fs, s =>
    addTodos fs (addTodo false f.now f.createdAt f.text f.priority f.dueDate s).1

/-- Blog post record, as built by `BlogManager.createPost`. -/
structure Post where
  id : String
  title : String
  content : String
  tags : List String
  excerpt : String
  createdAt : String
  deriving DecidableEq

/-- State of a `BlogManager`: the in-memory array `this.posts` plus the
durable value persisted under the `blog-posts` key. -/
structure BlogState where
  posts : List Post
  storage : Option (List Post)
  deriving DecidableEq

/-- `BlogManager.savePosts`: a bare `localStorage.setItem` with no
try/catch, so a throwing write propagates to the caller as an exception. -/
def savePosts (saveThrows : Bool) (s : BlogState) : Except Unit BlogState :=
  if saveThrows then Except.error () else Except.ok { s with storage := some s.posts }

/-- `BlogManager.loadPosts`: a bare `localStorage.getItem` followed by
`JSON.parse` with no try/catch; an absent key yields `[]`, but a parse
failure on malformed stored text propagates as an exception. -/
def loadPosts : Option (Except Unit (List Post)) → Except Unit (List Post)
  | none => Except.ok []
  | some (Except.error e) => Except.error e
  | some (Except.ok l) => Except.ok l

/-- `BlogManager.generateExcerpt(content)` with the default
`maxLength = 150` used by its only caller: empty content gives the empty
string, long content gives the 150-character prefix followed by the
truncation marker, anything else is returned whole. -/
def generateExcerpt (content : String) : String :=
  if content = "" then ""
  else if content.length > 150 then jsTake content 150 ++ "..."
  else content

/-- Tag parsing done by `BlogManager.handleFormSubmission`: the (already
trimmed) tags input is split on commas, each piece trimmed, empty pieces
dropped; an empty input short-circuits to the empty array. -/
def parseTags (tags : String) : List String :=
  if tags != "" then ((jsSplit tags ',').map jsTrim).filter (fun t => t != "")
  else []

/-- `BlogManager.createPost(title, content, tags, excerpt)`: unshifts the
new record and saves.  Because `savePosts` may throw, the call can end in
an exception, after `this.posts` has already been updated; on a normal end
the JS method returns `undefined`. -/
def createPost (saveThrows : Bool) (now createdAt title content : String)
    (tags : List String) (excerpt : String) (s : BlogState) :
    BlogState × Except Unit (Option Post) :=
  let newPost : Post :=
    { id := now, title := title, content := content, tags := tags,
      excerpt := excerpt, createdAt := createdAt }
  let s1 : BlogState := { s with posts := newPost :: s.posts }
  match savePosts saveThrows s1 with
  | Except.error e => (s1, Except.error e)
  | Except.ok s2 => (s2, Except.ok none)

/-- `BlogManager.updatePost(id, title, content, tags, excerpt)`: replaces
the four given fields of the first record whose id matches (the object
spread keeps `id` and `createdAt`), then saves; no-op when the id is
absent. -/
def updatePost (saveThrows : Bool) (id title content : String)
    (tags : List String) (excerpt : String) (s : BlogState) :
    BlogState × Except Unit Unit :=
  if s.posts.any (fun p => p.id == id) then
    let replaced :=
      updateFirstP (fun p => p.id == id)
        (fun p => { p with title := title, content := content, tags := tags, excerpt := excerpt })
        s.posts
    let s1 : BlogState := { s with posts := replaced }
    match savePosts saveThrows s1 with
    | Except.error e => (s1, Except.error e)
    | Except.ok s2 => (s2, Except.ok ())
  else (s, Except.ok ())

/-- `BlogManager.deletePost(id)`: when the id is found, asks
`confirm(...)` and splices the record out only on an affirmative answer,
then saves; a declined dialog or an absent id leaves everything
untouched. -/
def deletePost (saveThrows confirmed : Bool) (id : String) (s : BlogState) :
    BlogState × Except Unit Unit :=
  if s.posts.any (fun p => p.id == id) then
    if confirmed then
      let s1 : BlogState := { s with posts := removeFirstP (fun p => p.id == id) s.posts }
      match savePosts saveThrows s1 with
      | Except.error e => (s1, Except.error e)
      | Except.ok s2 => (s2, Except.ok ())
    else (s, Except.ok ())
  else (s, Except.ok ())

/-- `BlogManager.handleFormSubmission()`: trims the three form fields,
derives the tags array and the excerpt, rejects an empty title or content
(warning toast, no state change), and otherwise dispatches to
`updatePost` (when `currentView === 'edit'` and `currentPostId` is set) or
`createPost`. -/
def handleFormSubmission (saveThrows : Bool) (currentView : String)
    (currentPostId : Option String) (now createdAt : String)
    (rawTitle rawContent rawTags : String) (s : BlogState) :
    BlogState × Except Unit Unit :=
  let title := jsTrim rawTitle
  let content := jsTrim rawContent
  let tags := jsTrim rawTags
  let tagsArr := parseTags tags
  let excerpt := generateExcerpt content
  if title = "" || content = "" then (s, Except.ok ())
  else if currentView == "edit" && currentPostId.isSome then
    updatePost saveThrows (currentPostId.getD "") title content tagsArr excerpt s
  else
    let r := createPost saveThrows now createdAt title content tagsArr excerpt s
    (r.1, r.2.map (fun _ => ()))

/-- Search predicate of `BlogManager.renderPostsList`: the query matches a
post when it is a case-insensitive substring of the title, of the content,
or of some tag. -/
def matchesQuery (searchQuery : String) (post : Post) : Bool :=
  jsIncludes (jsToLower post.title) (jsToLower searchQuery) ||
  jsIncludes (jsToLower post.content) (jsToLower searchQuery) ||
  post.tags.any (fun tag => jsIncludes (jsToLower tag) (jsToLower searchQuery))

/-- Projection performed by `BlogManager.renderPostsList(searchQuery)`: a
falsy (empty) query displays every post, otherwise the posts are filtered
by `matchesQuery`.  The in-memory collection itself is never written. -/
def renderPostsList (searchQuery : String) (posts : List Post) : List Post :=
  if searchQuery != "" then posts.filter (matchesQuery searchQuery)
  else posts

/-! Helper lemmas about the first-match combinators and the save/append
plumbing shared by several managers. -/

theorem updateFirstP_first {α : Type} (p : α → Bool) (f : α → α)
    (l₁ : List α) (x : α) (l₂ : List α)
    (h₁ : ∀ y ∈ l₁, p y = false) (hx : p x = true) :
    updateFirstP p f (l₁ ++ x :: l₂) = l₁ ++ f x :: l₂ := by
  induction l₁ with
  | nil => simp [updateFirstP, hx]
  | cons a as ih =>
    have ha : p a = false := h₁ a (by simp)
    simp only [List.cons_append, updateFirstP, ha, Bool.false_eq_true, if_false,
      List.append_eq]
    rw [ih (fun y hy => h₁ y (List.mem_cons_of_mem a hy))]

theorem removeFirstP_first {α : Type} (p : α → Bool)
    (l₁ : List α) (x : α) (l₂ : List α)
    (h₁ : ∀ y ∈ l₁, p y = false) (hx : p x = true) :
    removeFirstP p (l₁ ++ x :: l₂) = l₁ ++ l₂ := by
  induction l₁ with
  | nil => simp [removeFirstP, hx]
  | cons a as ih =>
    have ha : p a = false := h₁ a (by simp)
    simp only [List.cons_append, removeFirstP, ha, Bool.false_eq_true, if_false,
      List.append_eq]
    rw [ih (fun y hy => h₁ y (List.mem_cons_of_mem a hy))]

theorem updateFirstP_map {α β : Type} (p : α → Bool) (f : α → α) (g : α → β)
    (hf : ∀ x, g (f x) = g x) :
    ∀ l : List α, (updateFirstP p f l).map g = l.map g := by
  intro l
  induction l with
  | nil => rfl
  | cons a as ih =>
    cases ha : p a with
    | true => simp [updateFirstP, ha, hf]
    | false => simp [updateFirstP, ha, ih]

theorem removeFirstP_length {α : Type} (p : α → Bool) :
    ∀ l : List α, l.any p = true → (removeFirstP p l).length + 1 = l.length := by
  intro l
  induction l with
  | nil => intro h; simp at h
  | cons a as ih =>
    intro h
    cases ha : p a with
    | true => simp [removeFirstP, ha]
    | false =>
      have has : as.any p = true := by
        rcases List.any_eq_true.mp h with ⟨x, hx, hpx⟩
        rcases List.mem_cons.mp hx with rfl | hx2
        · rw [ha] at hpx; exact absurd hpx (by simp)
        · exact List.any_eq_true.mpr ⟨x, hx2, hpx⟩
      simp only [removeFirstP, ha, Bool.false_eq_true, if_false, List.length_cons]
      rw [← ih has]

theorem any_append_first {α : Type} (p : α → Bool) (l₁ : List α) (x : α) (l₂ : List α)
    (hx : p x = true) : (l₁ ++ x :: l₂).any p = true :=
  List.any_eq_true.mpr ⟨x, by simp, hx⟩

theorem any_eq_false_of_forall {α : Type} (p : α → Bool) (l : List α)
    (h : ∀ y ∈ l, p y = false) : l.any p = false :=
  List.any_eq_false.mpr (fun x hx => by rw [h x hx]; simp)

theorem any_removeFirstP_eq_false {α β : Type} [DecidableEq β] (g : α → β) (v : β) :
    ∀ l : List α, (l.map g).Nodup →
      (removeFirstP (fun x => g x == v) l).any (fun x => g x == v) = false := by
  intro l
  induction l with
  | nil => intro _; rfl
  | cons a as ih =>
    intro h
    rw [List.map_cons, List.nodup_cons] at h
    cases ha : (g a == v) with
    | true =>
      have hga : g a = v := beq_iff_eq.mp ha
      simp only [removeFirstP, ha, if_true]
      refine any_eq_false_of_forall _ as (fun y hy => ?_)
      have : g y ≠ g a := by
        intro e
        exact h.1 (e ▸ List.mem_map_of_mem g hy)
      simp [hga ▸ this]
    | false =>
      simp only [removeFirstP, ha, Bool.false_eq_true, if_false, List.any_cons, ha,
        Bool.false_or]
      exact ih h.2

theorem saveTodos_todos (b : Bool) (s : TodoState) : (saveTodos b s).todos = s.todos := by
  cases b <;> rfl

theorem addTodo_fst_todos (b : Bool) (now createdAt text priority dueDate : String)
    (s : TodoState) :
    ((addTodo b now createdAt text priority dueDate s).1).todos =
      { id := now, text := text, completed := false, priority := priority,
        dueDate := dueDate, createdAt := createdAt } :: s.todos := by
  cases b <;> rfl

theorem addTodos_map_id (L : List TodoInput) :
    ∀ s : TodoState,
      (addTodos L s).todos.map (fun t => t.id) =
        (L.map (fun f => f.now)).reverse ++ s.todos.map (fun t => t.id) := by
  induction L with
  | nil => intro s; simp [addTodos]
  | cons f fs ih =>
    intro s
    rw [addTodos, ih]
    rw [List.map_cons, addTodo_fst_todos, List.map_cons, List.reverse_cons,
      List.append_assoc]
    rfl

theorem editTodo_not_found (b : Bool) (id newText : String) (s : TodoState)
    (h : ∀ u ∈ s.todos, (u.id == id) = false) :
    editTodo b id newText s = s := by
  unfold editTodo
  rw [any_eq_false_of_forall _ _ h]
  rfl

theorem editTodo_empty_trim (b : Bool) (id newText : String) (s : TodoState)
    (h : jsTrim newText = "") :
    editTodo b id newText s = s := by
  unfold editTodo
  rw [h]
  simp

theorem editTodo_found (id newText : String) (s : TodoState)
    (l₁ : List Todo) (t : Todo) (l₂ : List Todo)
    (hs : s.todos = l₁ ++ t :: l₂)
    (h₁ : ∀ u ∈ l₁, (u.id == id) = false)
    (ht : (t.id == id) = true)
    (hne : jsTrim newText ≠ "") :
    editTodo false id newText s =
      { todos := l₁ ++ { t with text := jsTrim newText } :: l₂,
        storage := some (l₁ ++ { t with text := jsTrim newText } :: l₂) } := by
  unfold editTodo
  rw [hs, any_append_first (fun u => u.id == id) l₁ t l₂ ht,
    updateFirstP_first (fun u => u.id == id) (fun u => { u with text := jsTrim newText })
      l₁ t l₂ h₁ ht]
  simp [saveTodos, bne_iff_ne.mpr hne]

theorem toggleTodo_map_id (b : Bool) (id : String) (s : TodoState) :
    (toggleTodo b id s).todos.map (fun t => t.id) = s.todos.map (fun t => t.id) := by
  unfold toggleTodo
  cases h : s.todos.any (fun t => t.id == id) with
  | true =>
    rw [if_pos rfl]
    rw [saveTodos_todos]
    exact updateFirstP_map (fun t => t.id == id)
      (fun t => { t with completed := !t.completed }) (fun t => t.id) (fun x => rfl) s.todos
  | false => rfl

theorem editTodo_map_id (b : Bool) (id newText : String) (s : TodoState) :
    (editTodo b id newText s).todos.map (fun t => t.id) = s.todos.map (fun t => t.id) := by
  unfold editTodo
  cases h : (s.todos.any (fun t => t.id == id) && jsTrim newText != "") with
  | true =>
    rw [if_pos rfl]
    rw [saveTodos_todos]
    exact updateFirstP_map (fun t => t.id == id)
      (fun t => { t with text := jsTrim newText }) (fun t => t.id) (fun x => rfl) s.todos
  | false => rfl

theorem deleteTodo_not_found (b : Bool) (id : String) (s : TodoState)
    (h : ∀ u ∈ s.todos, (u.id == id) = false) :
    deleteTodo b id s = s := by
  unfold deleteTodo
  rw [any_eq_false_of_forall _ _ h]
  rfl

theorem deleteTodo_found (id : String) (s : TodoState)
    (l₁ : List Todo) (t : Todo) (l₂ : List Todo)
    (hs : s.todos = l₁ ++ t :: l₂)
    (h₁ : ∀ u ∈ l₁, (u.id == id) = false)
    (ht : (t.id == id) = true) :
    deleteTodo false id s = { todos := l₁ ++ l₂, storage := some (l₁ ++ l₂) } := by
  unfold deleteTodo
  rw [hs, any_append_first (fun u => u.id == id) l₁ t l₂ ht,
    removeFirstP_first (fun u => u.id == id) l₁ t l₂ h₁ ht]
  rfl

theorem deleteTodo_idem (id : String) (s : TodoState)
    (h : (s.todos.map (fun t => t.id)).Nodup) :
    deleteTodo false id (deleteTodo false id s) = deleteTodo false id s := by
  cases ha : s.todos.any (fun t => t.id == id) with
  | false =>
    have hs : deleteTodo false id s = s := by
      unfold deleteTodo
      rw [ha]
      rfl
    rw [hs, hs]
  | true =>
    have hs : deleteTodo false id s =
        { todos := removeFirstP (fun t => t.id == id) s.todos,
          storage := some (removeFirstP (fun t => t.id == id) s.todos) } := by
      unfold deleteTodo
      rw [ha]
      rfl
    rw [hs]
    unfold deleteTodo
    rw [any_removeFirstP_eq_false (fun t : Todo => t.id) id s.todos h]
    rfl

theorem updatePost_not_found (b : Bool) (id title content : String)
    (tags : List String) (excerpt : String) (s : BlogState)
    (h : ∀ u ∈ s.posts, (u.id == id) = false) :
    updatePost b id title content tags excerpt s = (s, Except.ok ()) := by
  unfold updatePost
  rw [any_eq_false_of_forall _ _ h]
  rfl

theorem updatePost_found (id title content : String)
    (tags : List String) (excerpt : String) (s : BlogState)
    (l₁ : List Post) (p : Post) (l₂ : List Post)
    (hs : s.posts = l₁ ++ p :: l₂)
    (h₁ : ∀ u ∈ l₁, (u.id == id) = false)
    (hp : (p.id == id) = true) :
    updatePost false id title content tags excerpt s =
      ({ posts := l₁ ++ { p with title := title, content := content, tags := tags, excerpt := excerpt } :: l₂, storage := some (l₁ ++ { p with title := title, content := content, tags := tags, excerpt := excerpt } :: l₂) },
       Except.ok ()) := by
  unfold updatePost
  rw [hs, any_append_first (fun u => u.id == id) l₁ p l₂ hp,
    updateFirstP_first (fun u => u.id == id)
      (fun u => { u with title := title, content := content, tags := tags, excerpt := excerpt })
      l₁ p l₂ h₁ hp]
  rfl

theorem updatePost_map_id (b : Bool) (id title content : String)
    (tags : List String) (excerpt : String) (s : BlogState) :
    ((updatePost b id title content tags excerpt s).1).posts.map (fun p => p.id) =
      s.posts.map (fun p => p.id) := by
  unfold updatePost
  cases h : s.posts.any (fun u => u.id == id) with
  | true =>
    rw [if_pos rfl]
    cases b <;>
      exact updateFirstP_map (fun u => u.id == id)
        (fun u => { u with title := title, content := content, tags := tags, excerpt := excerpt })
        (fun u => u.id) (fun x => rfl) s.posts
  | false => rfl

theorem deletePost_not_found (b c : Bool) (id : String) (s : BlogState)
    (h : ∀ u ∈ s.posts, (u.id == id) = false) :
    deletePost b c id s = (s, Except.ok ()) := by
  unfold deletePost
  rw [any_eq_false_of_forall _ _ h]
  rfl

theorem deletePost_declined (b : Bool) (id : String) (s : BlogState) :
    deletePost b false id s = (s, Except.ok ()) := by
  unfold deletePost
  cases h : s.posts.any (fun u => u.id == id) <;> rfl

theorem deletePost_found_confirmed (id : String) (s : BlogState)
    (l₁ : List Post) (p : Post) (l₂ : List Post)
    (hs : s.posts = l₁ ++ p :: l₂)
    (h₁ : ∀ u ∈ l₁, (u.id == id) = false)
    (hp : (p.id == id) = true) :
    deletePost false true id s =
      ({ posts := l₁ ++ l₂, storage := some (l₁ ++ l₂) }, Except.ok ()) := by
  unfold deletePost
  rw [hs, any_append_first (fun u => u.id == id) l₁ p l₂ hp,
    removeFirstP_first (fun u => u.id == id) l₁ p l₂ h₁ hp]
  rfl

theorem deletePost_idem (id : String) (s : BlogState)
    (h : (s.posts.map (fun p => p.id)).Nodup) :
    deletePost false true id (deletePost false true id s).1 =
      ((deletePost false true id s).1, Except.ok ()) := by
  cases ha : s.posts.any (fun u => u.id == id) with
  | false =>
    have hs : deletePost false true id s = (s, Except.ok ()) := by
      unfold deletePost
      rw [ha]
      rfl
    rw [hs]
    exact hs
  | true =>
    have hs : deletePost false true id s =
        ({ posts := removeFirstP (fun u => u.id == id) s.posts,
           storage := some (removeFirstP (fun u => u.id == id) s.posts) },
         Except.ok ()) := by
      unfold deletePost
      rw [ha]
      rfl
    rw [hs]
    unfold deletePost
    rw [any_removeFirstP_eq_false (fun p : Post => p.id) id s.posts h]
    rfl

theorem createPost_ok (now createdAt title content : String)
    (tags : List String) (excerpt : String) (s : BlogState) :
    createPost false now createdAt title content tags excerpt s =
      ({ posts := { id := now, title := title, content := content, tags := tags, excerpt := excerpt, createdAt := createdAt } :: s.posts, storage := some ({ id := now, title := title, content := content, tags := tags, excerpt := excerpt, createdAt := createdAt } :: s.posts) },
       Except.ok none) := rfl

theorem createPost_throw (now createdAt title content : String)
    (tags : List String) (excerpt : String) (s : BlogState) :
    createPost true now createdAt title content tags excerpt s =
      ({ posts := { id := now, title := title, content := content, tags := tags, excerpt := excerpt, createdAt := createdAt } :: s.posts, storage := s.storage },
       Except.error ()) := rfl

theorem clearCompleted_zero (b c : Bool) (s : TodoState)
    (h : ∀ t ∈ s.todos, t.completed = false) :
    clearCompleted b c s =
      (s, some { message := "No completed todos to clear!", kind := NotifyKind.info }) := by
  have hf : s.todos.filter (fun t => t.completed) = [] := by
    rw [List.filter_eq_nil_iff]
    intro a ha
    rw [h a ha]
    simp
  unfold clearCompleted
  rw [hf]
  rfl

theorem filter_completed_length_ne_zero (s : TodoState)
    (h : s.todos.any (fun t => t.completed) = true) :
    ¬ (s.todos.filter (fun t => t.completed)).length = 0 := by
  rcases List.any_eq_true.mp h with ⟨x, hx, hpx⟩
  have hmem : x ∈ s.todos.filter (fun t => t.completed) := List.mem_filter.mpr ⟨hx, hpx⟩
  intro e
  rw [List.length_eq_zero] at e
  rw [e] at hmem
  simp at hmem

theorem clearCompleted_declined (b : Bool) (s : TodoState)
    (h : s.todos.any (fun t => t.completed) = true) :
    clearCompleted b false s = (s, none) := by
  unfold clearCompleted
  simp [filter_completed_length_ne_zero s h]

theorem clearCompleted_confirmed (s : TodoState)
    (h : s.todos.any (fun t => t.completed) = true) :
    clearCompleted false true s =
      ({ todos := s.todos.filter (fun t => !t.completed),
         storage := some (s.todos.filter (fun t => !t.completed)) },
       some { message := toString (s.todos.filter (fun t => t.completed)).length ++
                " completed todos cleared!",
              kind := NotifyKind.success }) := by
  unfold clearCompleted
  simp [filter_completed_length_ne_zero s h, saveTodos]

theorem handleFormSubmission_invalid (b : Bool) (cv : String) (cpid : Option String)
    (now createdAt rawTitle rawContent rawTags : String) (s : BlogState)
    (h : jsTrim rawTitle = "" ∨ jsTrim rawContent = "") :
    handleFormSubmission b cv cpid now createdAt rawTitle rawContent rawTags s =
      (s, Except.ok ()) := by
  unfold handleFormSubmission
  rcases h with h | h <;> simp [h]

theorem handleFormSubmission_create (now createdAt rawTitle rawContent rawTags : String)
    (s : BlogState)
    (ht : jsTrim rawTitle ≠ "") (hc : jsTrim rawContent ≠ "") :
    handleFormSubmission false "create" none now createdAt rawTitle rawContent rawTags s =
      ({ posts := { id := now, title := jsTrim rawTitle, content := jsTrim rawContent, tags := parseTags (jsTrim rawTags), excerpt := generateExcerpt (jsTrim rawContent), createdAt := createdAt } :: s.posts, storage := some ({ id := now, title := jsTrim rawTitle, content := jsTrim rawContent, tags := parseTags (jsTrim rawTags), excerpt := generateExcerpt (jsTrim rawContent), createdAt := createdAt } :: s.posts) },
       Except.ok ()) := by
  unfold handleFormSubmission
  simp [ht, hc, createPost_ok, Except.map]

theorem handleFormSubmission_edit (id now createdAt rawTitle rawContent rawTags : String)
    (s : BlogState)
    (ht : jsTrim rawTitle ≠ "") (hc : jsTrim rawContent ≠ "") :
    handleFormSubmission false "edit" (some id) now createdAt rawTitle rawContent rawTags s =
      updatePost false id (jsTrim rawTitle) (jsTrim rawContent)
        (parseTags (jsTrim rawTags)) (generateExcerpt (jsTrim rawContent)) s := by
  unfold handleFormSubmission
  simp [ht, hc]

/-! Claim theorems. -/

/-- C1, counterexample: the claim says `addTodo` with whitespace-only text
is a no-op, but `addTodo(" ")` called directly performs no validation: it
appends a record (collection length grows to 1) and persists it (storage
is no longer empty).  The same holds for `createPost`. -/
theorem claim_C1_cex :
    ((addTodo false "1" "2024-01-01T00:00:00.000Z" " " "medium" ""
        { todos := [], storage := none }).1).todos.length = 1
    ∧ ((addTodo false "1" "2024-01-01T00:00:00.000Z" " " "medium" ""
        { todos := [], storage := none }).1).storage ≠ none := by
  decide

/-- C1, amended: the empty/whitespace validation lives in the two form
handlers, not in `addTodo`/`createPost` themselves.  The todo submit
handler trims the input and skips `addTodo` when the trimmed text is
empty, and `handleFormSubmission` returns without touching state or
storage when the trimmed title or trimmed content is empty; `addTodo`
itself always appends a record. -/
theorem claim_C1_form_validation :
    (∀ (b : Bool) (now createdAt inputValue priority dueDate : String) (s : TodoState),
        jsTrim inputValue = "" →
        submitTodoForm b now createdAt inputValue priority dueDate s = s)
    ∧ (∀ (b : Bool) (cv : String) (cpid : Option String)
         (now createdAt rawTitle rawContent rawTags : String) (s : BlogState),
        jsTrim rawTitle = "" ∨ jsTrim rawContent = "" →
        handleFormSubmission b cv cpid now createdAt rawTitle rawContent rawTags s =
          (s, Except.ok ()))
    ∧ (∀ (b : Bool) (now createdAt text priority dueDate : String) (s : TodoState),
        ((addTodo b now createdAt text priority dueDate s).1).todos.length =
          s.todos.length + 1) := by
  refine ⟨?_, ?_, ?_⟩
  · intro b now createdAt inputValue priority dueDate s h
    unfold submitTodoForm
    rw [h]
    rfl
  · intro b cv cpid now createdAt rawTitle rawContent rawTags s h
    exact handleFormSubmission_invalid b cv cpid now createdAt rawTitle rawContent rawTags s h
  · intro b now createdAt text priority dueDate s
    rw [addTodo_fst_todos]
    rfl

/-- C1 witness: both validation branches at concrete whitespace inputs. -/
theorem claim_C1_form_validation_witness :
    submitTodoForm false "1" "t0" "   " "medium" "" { todos := [], storage := none } =
      { todos := [], storage := none }
    ∧ handleFormSubmission false "create" none "1" "t0" " " "body" ""
        { posts := [], storage := none } = ({ posts := [], storage := none }, Except.ok ()) :=
  ⟨claim_C1_form_validation.1 false "1" "t0" "   " "medium" ""
      { todos := [], storage := none } (by decide),
   claim_C1_form_validation.2.1 false "create" none "1" "t0" " " "body" ""
      { posts := [], storage := none } (Or.inl (by decide))⟩

/-- C2, counterexample: `BlogManager.loadPosts` has no try/catch, so the
`JSON.parse` failure on malformed stored data propagates to the caller as
an exception instead of yielding an empty collection. -/
theorem claim_C2_cex : loadPosts (some (Except.error ())) = Except.error () := rfl

/-- C2, amended: the todo manager catches both storage faults (a failed or
malformed load yields `[]`, a throwing save leaves the state untouched),
but the blog manager catches neither: `loadPosts` propagates the parse
failure and `savePosts` propagates the write failure — though even then
the in-memory collection keeps the new record and remains authoritative
(`createPost` with a throwing save). -/
theorem claim_C2_storage_faults :
    (loadTodos none = [] ∧ loadTodos (some (Except.error ())) = []
      ∧ (∀ l : List Todo, loadTodos (some (Except.ok l)) = l))
    ∧ (∀ s : TodoState, saveTodos true s = s)
    ∧ (loadPosts none = Except.ok []
      ∧ (∀ l : List Post, loadPosts (some (Except.ok l)) = Except.ok l)
      ∧ loadPosts (some (Except.error ())) = Except.error ())
    ∧ (∀ s : BlogState, savePosts true s = Except.error ())
    ∧ (∀ (now createdAt title content : String) (tags : List String)
         (excerpt : String) (s : BlogState),
        ((createPost true now createdAt title content tags excerpt s).1).posts =
          { id := now, title := title, content := content, tags := tags, excerpt := excerpt, createdAt := createdAt } :: s.posts
        ∧ ((createPost true now createdAt title content tags excerpt s).1).storage = s.storage
        ∧ (createPost true now createdAt title content tags excerpt s).2 = Except.error ()) := by
  refine ⟨⟨rfl, rfl, fun l => rfl⟩, fun s => rfl, ⟨rfl, fun l => rfl, rfl⟩, fun s => rfl, ?_⟩
  intro now createdAt title content tags excerpt s
  rw [createPost_throw]
  exact ⟨rfl, rfl, rfl⟩

/-- C3, counterexample: the claim says create returns the new record, but
the JS `addTodo` body has no `return` statement, so the call evaluates to
`undefined` (model: second component `none`), not to the record. -/
theorem claim_C3_cex :
    (addTodo false "1700000000000" "2024-01-01T00:00:00.000Z" "Buy milk" "high" ""
      { todos := [], storage := none }).2 = none := rfl

/-- C3, amended: for valid input (and a succeeding save), create builds the
record from the inputs with the timestamp id and creation instant, with
completed=false for todos, unshifts it at the head leaving all other
records shifted down unchanged, persists the whole collection, and a
lookup of the new identifier finds exactly that record; the functions
themselves return no value. -/
theorem claim_C3_create_inserts :
    (∀ (now createdAt text priority dueDate : String) (s : TodoState),
        jsTrim text ≠ "" →
        ((addTodo false now createdAt text priority dueDate s).1).todos = { id := now, text := text, completed := false, priority := priority, dueDate := dueDate, createdAt := createdAt } :: s.todos
        ∧ ((addTodo false now createdAt text priority dueDate s).1).storage = some ({ id := now, text := text, completed := false, priority := priority, dueDate := dueDate, createdAt := createdAt } :: s.todos)
        ∧ (((addTodo false now createdAt text priority dueDate s).1).todos).find? (fun t => t.id == now) = some { id := now, text := text, completed := false, priority := priority, dueDate := dueDate, createdAt := createdAt }
        ∧ (addTodo false now createdAt text priority dueDate s).2 = none)
    ∧ (∀ (now createdAt title content : String) (tags : List String)
         (excerpt : String) (s : BlogState),
        jsTrim title ≠ "" → jsTrim content ≠ "" →
        ((createPost false now createdAt title content tags excerpt s).1).posts = { id := now, title := title, content := content, tags := tags, excerpt := excerpt, createdAt := createdAt } :: s.posts
        ∧ ((createPost false now createdAt title content tags excerpt s).1).storage = some ({ id := now, title := title, content := content, tags := tags, excerpt := excerpt, createdAt := createdAt } :: s.posts)
        ∧ (((createPost false now createdAt title content tags excerpt s).1).posts).find? (fun p => p.id == now) = some { id := now, title := title, content := content, tags := tags, excerpt := excerpt, createdAt := createdAt }
        ∧ (createPost false now createdAt title content tags excerpt s).2 = Except.ok none) := by
  constructor
  · intro now createdAt text priority dueDate s _
    refine ⟨rfl, rfl, ?_, rfl⟩
    exact List.find?_cons_of_pos _ (by simp)
  · intro now createdAt title content tags excerpt s _ _
    rw [createPost_ok]
    refine ⟨rfl, rfl, ?_, rfl⟩
    exact List.find?_cons_of_pos _ (by simp)

/-- C3 witness: both create paths at concrete valid inputs. -/
theorem claim_C3_create_inserts_witness :
    ((addTodo false "1" "c" "Buy milk" "high" "" { todos := [], storage := none }).1).todos = [{ id := "1", text := "Buy milk", completed := false, priority := "high", dueDate := "", createdAt := "c" }]
    ∧ (createPost false "2" "c2" "Hi" "Body" [] "Body" { posts := [], storage := none }).2 = Except.ok none :=
  ⟨(claim_C3_create_inserts.1 "1" "c" "Buy milk" "high" ""
      { todos := [], storage := none } (by decide)).1,
   (claim_C3_create_inserts.2 "2" "c2" "Hi" "Body" [] "Body"
      { posts := [], storage := none } (by decide) (by decide)).2.2.2⟩

/-- C4, counterexample: identifiers come from `Date.now().toString()`, and
two creates within the same millisecond read equal clock values, so the
store can end up with two records carrying the same id — the ids are not
pairwise distinct. -/
theorem claim_C4_cex :
    ¬ (((addTodos [{ now := "1", createdAt := "c1", text := "a", priority := "medium", dueDate := "" }, { now := "1", createdAt := "c2", text := "b", priority := "medium", dueDate := "" }] { todos := [], storage := none }).todos.map (fun t => t.id)).Nodup) := by
  decide

/-- C4, amended: identifiers stay pairwise distinct provided the clock
values read by the creates are pairwise distinct and fresh for the store
(true whenever the creates happen in distinct milliseconds); and no
operation ever mutates an assigned identifier: edit, toggle and update all
preserve the exact id sequence of the collection. -/
theorem claim_C4_unique_ids :
    (∀ (L : List TodoInput) (s : TodoState),
        (L.map (fun f => f.now)).Nodup →
        (∀ f ∈ L, f.now ∉ s.todos.map (fun t => t.id)) →
        (s.todos.map (fun t => t.id)).Nodup →
        ((addTodos L s).todos.map (fun t => t.id)).Nodup)
    ∧ (∀ (b : Bool) (id newText : String) (s : TodoState),
        (editTodo b id newText s).todos.map (fun t => t.id) = s.todos.map (fun t => t.id))
    ∧ (∀ (b : Bool) (id : String) (s : TodoState),
        (toggleTodo b id s).todos.map (fun t => t.id) = s.todos.map (fun t => t.id))
    ∧ (∀ (b : Bool) (id title content : String) (tags : List String) (excerpt : String)
         (s : BlogState),
        ((updatePost b id title content tags excerpt s).1).posts.map (fun p => p.id) =
          s.posts.map (fun p => p.id)) := by
  refine ⟨?_, editTodo_map_id, toggleTodo_map_id, updatePost_map_id⟩
  intro L s h1 h2 h3
  rw [addTodos_map_id L s, List.nodup_append]
  refine ⟨List.nodup_reverse.mpr h1, h3, ?_⟩
  intro a ha hb
  rw [List.mem_reverse] at ha
  rcases List.mem_map.mp ha with ⟨f, hf, rfl⟩
  exact h2 f hf hb

/-- C4 witness: two creates at distinct clock values on the empty store
give distinct ids. -/
theorem claim_C4_unique_ids_witness :
    ((addTodos [{ now := "1", createdAt := "c1", text := "a", priority := "medium", dueDate := "" }, { now := "2", createdAt := "c2", text := "b", priority := "medium", dueDate := "" }] { todos := [], storage := none }).todos.map (fun t => t.id)).Nodup :=
  claim_C4_unique_ids.1
    [{ now := "1", createdAt := "c1", text := "a", priority := "medium", dueDate := "" }, { now := "2", createdAt := "c2", text := "b", priority := "medium", dueDate := "" }]
    { todos := [], storage := none } (by decide) (by decide) (by decide)

/-- C5, counterexample: a record with id "1" is present and the provided
new text is the whitespace string, yet `editTodo` leaves the state fully
unchanged (text stays "old") instead of replacing the provided field:
`editTodo` silently requires the trimmed text to be non-empty, and when it
does store, it stores the trimmed text rather than the provided one. -/
theorem claim_C5_cex :
    editTodo false "1" " " { todos := [{ id := "1", text := "old", completed := false, priority := "medium", dueDate := "", createdAt := "c" }], storage := none } = { todos := [{ id := "1", text := "old", completed := false, priority := "medium", dueDate := "", createdAt := "c" }], storage := none } := by
  decide

/-- C5, amended: an absent id is a no-op for both update operations, and
`editTodo` is also a no-op when the new text trims to empty; otherwise
only the targeted (first matching) record changes — `editTodo` replaces
its text by the trimmed new text, `updatePost` replaces exactly title,
content, tags and excerpt — while the record's id and createdAt and every
other record are untouched, and the new collection is persisted. -/
theorem claim_C5_update_frame :
    (∀ (b : Bool) (id newText : String) (s : TodoState),
        (∀ u ∈ s.todos, (u.id == id) = false) → editTodo b id newText s = s)
    ∧ (∀ (b : Bool) (id newText : String) (s : TodoState),
        jsTrim newText = "" → editTodo b id newText s = s)
    ∧ (∀ (id newText : String) (s : TodoState) (l₁ : List Todo) (t : Todo) (l₂ : List Todo),
        s.todos = l₁ ++ t :: l₂ → (∀ u ∈ l₁, (u.id == id) = false) → (t.id == id) = true →
        jsTrim newText ≠ "" →
        editTodo false id newText s = { todos := l₁ ++ { t with text := jsTrim newText } :: l₂, storage := some (l₁ ++ { t with text := jsTrim newText } :: l₂) })
    ∧ (∀ (b : Bool) (id title content : String) (tags : List String) (excerpt : String)
         (s : BlogState),
        (∀ u ∈ s.posts, (u.id == id) = false) →
        updatePost b id title content tags excerpt s = (s, Except.ok ()))
    ∧ (∀ (id title content : String) (tags : List String) (excerpt : String)
         (s : BlogState) (l₁ : List Post) (p : Post) (l₂ : List Post),
        s.posts = l₁ ++ p :: l₂ → (∀ u ∈ l₁, (u.id == id) = false) → (p.id == id) = true →
        updatePost false id title content tags excerpt s = ({ posts := l₁ ++ { p with title := title, content := content, tags := tags, excerpt := excerpt } :: l₂, storage := some (l₁ ++ { p with title := title, content := content, tags := tags, excerpt := excerpt } :: l₂) }, Except.ok ())) :=
  ⟨editTodo_not_found, editTodo_empty_trim, editTodo_found,
   updatePost_not_found, updatePost_found⟩

/-- C5 witness: editing the only record stores the trimmed text and keeps
id and createdAt. -/
theorem claim_C5_update_frame_witness :
    editTodo false "1" " new " { todos := [{ id := "1", text := "old", completed := false, priority := "medium", dueDate := "", createdAt := "c" }], storage := none } = { todos := [{ id := "1", text := "new", completed := false, priority := "medium", dueDate := "", createdAt := "c" }], storage := some [{ id := "1", text := "new", completed := false, priority := "medium", dueDate := "", createdAt := "c" }] } :=
  claim_C5_update_frame.2.2.1 "1" " new "
    { todos := [{ id := "1", text := "old", completed := false, priority := "medium", dueDate := "", createdAt := "c" }], storage := none }
    [] { id := "1", text := "old", completed := false, priority := "medium", dueDate := "", createdAt := "c" } []
    rfl (by decide) (by decide) (by decide)

/-- C6: the excerpt stored at create/update time equals the content when it
is at most 150 characters and otherwise the 150-character prefix plus the
truncation marker; the stored tags are the comma-split, trimmed, non-empty
pieces of the tags input; and both form-submission paths (create and edit)
store exactly these derived values on the new or targeted record. -/
theorem claim_C6_excerpt_tags :
    (∀ content : String, content.length ≤ 150 → generateExcerpt content = content)
    ∧ (∀ content : String, 150 < content.length →
        generateExcerpt content = jsTake content 150 ++ "...")
    ∧ (∀ t : String, parseTags t = ((jsSplit t ',').map jsTrim).filter (fun x => x != ""))
    ∧ (∀ (now createdAt rawTitle rawContent rawTags : String) (s : BlogState),
        jsTrim rawTitle ≠ "" → jsTrim rawContent ≠ "" →
        ((handleFormSubmission false "create" none now createdAt rawTitle rawContent rawTags s).1).posts = { id := now, title := jsTrim rawTitle, content := jsTrim rawContent, tags := parseTags (jsTrim rawTags), excerpt := generateExcerpt (jsTrim rawContent), createdAt := createdAt } :: s.posts)
    ∧ (∀ (id now createdAt rawTitle rawContent rawTags : String) (s : BlogState)
         (l₁ : List Post) (p : Post) (l₂ : List Post),
        jsTrim rawTitle ≠ "" → jsTrim rawContent ≠ "" →
        s.posts = l₁ ++ p :: l₂ → (∀ u ∈ l₁, (u.id == id) = false) → (p.id == id) = true →
        ((handleFormSubmission false "edit" (some id) now createdAt rawTitle rawContent rawTags s).1).posts = l₁ ++ { p with title := jsTrim rawTitle, content := jsTrim rawContent, tags := parseTags (jsTrim rawTags), excerpt := generateExcerpt (jsTrim rawContent) } :: l₂) := by
  refine ⟨?_, ?_, ?_, ?_, ?_⟩
  · intro content h
    unfold generateExcerpt
    by_cases hc : content = ""
    · rw [if_pos hc, hc]
    · rw [if_neg hc, if_neg (Nat.not_lt.mpr h)]
  · intro content h
    have hc : content ≠ "" := by
      intro e
      rw [e] at h
      exact absurd h (by decide)
    unfold generateExcerpt
    rw [if_neg hc, if_pos h]
  · intro t
    by_cases h : t = ""
    · subst h
      decide
    · unfold parseTags
      rw [if_pos (bne_iff_ne.mpr h)]
  · intro now createdAt rawTitle rawContent rawTags s ht hc
    rw [handleFormSubmission_create now createdAt rawTitle rawContent rawTags s ht hc]
  · intro id now createdAt rawTitle rawContent rawTags s l₁ p l₂ ht hc hs h₁ hp
    rw [handleFormSubmission_edit id now createdAt rawTitle rawContent rawTags s ht hc,
      updatePost_found id (jsTrim rawTitle) (jsTrim rawContent)
        (parseTags (jsTrim rawTags)) (generateExcerpt (jsTrim rawContent)) s l₁ p l₂ hs h₁ hp]

/-- C6 witness: the spec scenario — a short content is its own excerpt and
the tags input splits into the two trimmed tags. -/
theorem claim_C6_excerpt_tags_witness :
    generateExcerpt "Short body" = "Short body"
    ∧ ((handleFormSubmission false "create" none "9" "c" "Hi" "This is a long body text..." "tag1, tag2" { posts := [], storage := none }).1).posts = [{ id := "9", title := "Hi", content := "This is a long body text...", tags := ["tag1", "tag2"], excerpt := "This is a long body text...", createdAt := "c" }] := by
  refine ⟨claim_C6_excerpt_tags.1 "Short body" (by decide), ?_⟩
  rw [claim_C6_excerpt_tags.2.2.2.1 "9" "c" "Hi" "This is a long body text..." "tag1, tag2"
    { posts := [], storage := none } (by decide) (by decide)]
  decide

/-- C7, counterexample: with two records sharing the id "1" (reachable via
two same-millisecond creates, see the C4 counterexample), deleting id "1"
twice removes two records while deleting it once removes one, so the end
states differ — delete is not idempotent on such a collection. -/
theorem claim_C7_cex :
    deleteTodo false "1" (deleteTodo false "1" { todos := [{ id := "1", text := "a", completed := false, priority := "m", dueDate := "", createdAt := "c1" }, { id := "1", text := "b", completed := false, priority := "m", dueDate := "", createdAt := "c2" }], storage := none }) ≠ deleteTodo false "1" { todos := [{ id := "1", text := "a", completed := false, priority := "m", dueDate := "", createdAt := "c1" }, { id := "1", text := "b", completed := false, priority := "m", dueDate := "", createdAt := "c2" }], storage := none } := by
  decide

/-- C7, amended: delete removes exactly the first record whose identifier
matches and persists the shrunk collection, is a no-op (state and storage)
when the id is absent, and is idempotent provided the collection's
identifiers are pairwise distinct; for posts the same holds with the
confirmation dialog answered affirmatively (a declined dialog or an absent
id changes nothing, see C10). -/
theorem claim_C7_delete :
    (∀ (b : Bool) (id : String) (s : TodoState),
        (∀ u ∈ s.todos, (u.id == id) = false) → deleteTodo b id s = s)
    ∧ (∀ (id : String) (s : TodoState) (l₁ : List Todo) (t : Todo) (l₂ : List Todo),
        s.todos = l₁ ++ t :: l₂ → (∀ u ∈ l₁, (u.id == id) = false) → (t.id == id) = true →
        deleteTodo false id s = { todos := l₁ ++ l₂, storage := some (l₁ ++ l₂) })
    ∧ (∀ (id : String) (s : TodoState), (s.todos.map (fun t => t.id)).Nodup →
        deleteTodo false id (deleteTodo false id s) = deleteTodo false id s)
    ∧ (∀ (b c : Bool) (id : String) (s : BlogState),
        (∀ u ∈ s.posts, (u.id == id) = false) → deletePost b c id s = (s, Except.ok ()))
    ∧ (∀ (id : String) (s : BlogState) (l₁ : List Post) (p : Post) (l₂ : List Post),
        s.posts = l₁ ++ p :: l₂ → (∀ u ∈ l₁, (u.id == id) = false) → (p.id == id) = true →
        deletePost false true id s = ({ posts := l₁ ++ l₂, storage := some (l₁ ++ l₂) }, Except.ok ()))
    ∧ (∀ (id : String) (s : BlogState), (s.posts.map (fun p => p.id)).Nodup →
        deletePost false true id (deletePost false true id s).1 =
          ((deletePost false true id s).1, Except.ok ())) :=
  ⟨deleteTodo_not_found, deleteTodo_found, deleteTodo_idem,
   deletePost_not_found, deletePost_found_confirmed, deletePost_idem⟩

/-- C7 witness: deleting the only record removes it and persists, and the
delete is idempotent on a duplicate-free collection. -/
theorem claim_C7_delete_witness :
    deleteTodo false "1" { todos := [{ id := "1", text := "a", completed := false, priority := "m", dueDate := "", createdAt := "c" }], storage := none } = { todos := [], storage := some [] }
    ∧ deleteTodo false "1" (deleteTodo false "1" { todos := [{ id := "1", text := "a", completed := false, priority := "m", dueDate := "", createdAt := "c" }], storage := none }) = deleteTodo false "1" { todos := [{ id := "1", text := "a", completed := false, priority := "m", dueDate := "", createdAt := "c" }], storage := none } :=
  ⟨claim_C7_delete.2.1 "1"
      { todos := [{ id := "1", text := "a", completed := false, priority := "m", dueDate := "", createdAt := "c" }], storage := none }
      [] { id := "1", text := "a", completed := false, priority := "m", dueDate := "", createdAt := "c" } []
      rfl (by decide) (by decide),
   claim_C7_delete.2.2.1 "1"
      { todos := [{ id := "1", text := "a", completed := false, priority := "m", dueDate := "", createdAt := "c" }], storage := none }
      (by decide)⟩

/-- C8, counterexample: the collection holds one completed record, but with
the confirmation dialog declined `clearCompleted` removes nothing — the
completed record is still there, contradicting the claim that completed
records are removed. -/
theorem claim_C8_cex :
    ((clearCompleted false false { todos := [{ id := "1", text := "a", completed := true, priority := "m", dueDate := "", createdAt := "c" }], storage := none }).1).todos = [{ id := "1", text := "a", completed := true, priority := "m", dueDate := "", createdAt := "c" }] := by
  decide

/-- C8, amended: with zero completed records, `clearCompleted` leaves state
and storage unchanged, does not persist, and reports the informational
"nothing to clear" message (no confirmation is even requested); with at
least one completed record and the confirmation affirmative, it keeps all
and only the non-completed records in one filter pass, persists, and
reports a success-kind outcome — distinct from the info-kind one. -/
theorem claim_C8_clearCompleted :
    (∀ (b c : Bool) (s : TodoState),
        (∀ t ∈ s.todos, t.completed = false) →
        clearCompleted b c s =
          (s, some { message := "No completed todos to clear!", kind := NotifyKind.info }))
    ∧ (∀ s : TodoState, s.todos.any (fun t => t.completed) = true →
        ((clearCompleted false true s).1).todos = s.todos.filter (fun t => !t.completed)
        ∧ ((clearCompleted false true s).1).storage =
            some (s.todos.filter (fun t => !t.completed))
        ∧ ((clearCompleted false true s).2).map (fun n => n.kind) = some NotifyKind.success)
    ∧ (∀ (s : TodoState) (t : Todo), s.todos.any (fun u => u.completed) = true →
        (t ∈ ((clearCompleted false true s).1).todos ↔ t ∈ s.todos ∧ t.completed = false))
    ∧ NotifyKind.info ≠ NotifyKind.success := by
  refine ⟨clearCompleted_zero, ?_, ?_, by decide⟩
  · intro s h
    rw [clearCompleted_confirmed s h]
    exact ⟨rfl, rfl, rfl⟩
  · intro s t h
    rw [clearCompleted_confirmed s h]
    simp [List.mem_filter]

/-- C8 witness: the empty store reports the info outcome unchanged, and a
store with one completed record is emptied on an affirmative answer. -/
theorem claim_C8_clearCompleted_witness :
    clearCompleted false false { todos := [], storage := none } = ({ todos := [], storage := none }, some { message := "No completed todos to clear!", kind := NotifyKind.info })
    ∧ ((clearCompleted false true { todos := [{ id := "1", text := "a", completed := true, priority := "m", dueDate := "", createdAt := "c" }], storage := none }).1).todos = [] :=
  ⟨claim_C8_clearCompleted.1 false false { todos := [], storage := none } (by decide),
   (claim_C8_clearCompleted.2.1
      { todos := [{ id := "1", text := "a", completed := true, priority := "m", dueDate := "", createdAt := "c" }], storage := none }
      (by decide)).1⟩

/-- C9: the projectors are pure functions of the collection — the pending
and completed filters return order-preserving subsequences containing
exactly the records with the corresponding completed flag, the all filter
returns the collection itself, and the post search keeps a post precisely
when the query is empty or is a case-insensitive substring of its title,
its content, or some tag (the last conjunct ties `jsIncludes` to genuine
substring containment). -/
theorem claim_C9_projectors :
    (∀ todos : List Todo, (getFilteredTodos "pending" todos).Sublist todos
        ∧ (∀ t ∈ getFilteredTodos "pending" todos, t.completed = false)
        ∧ (∀ t ∈ todos, t.completed = false → t ∈ getFilteredTodos "pending" todos))
    ∧ (∀ todos : List Todo, (getFilteredTodos "completed" todos).Sublist todos
        ∧ (∀ t ∈ getFilteredTodos "completed" todos, t.completed = true)
        ∧ (∀ t ∈ todos, t.completed = true → t ∈ getFilteredTodos "completed" todos))
    ∧ (∀ todos : List Todo, getFilteredTodos "all" todos = todos)
    ∧ (∀ (q : String) (posts : List Post), (renderPostsList q posts).Sublist posts)
    ∧ (∀ (q : String) (posts : List Post) (p : Post),
        p ∈ renderPostsList q posts ↔ p ∈ posts ∧ (q = "" ∨ matchesQuery q p = true))
    ∧ (∀ s pat : String, jsIncludes s pat = true ↔ pat.toList <:+: s.toList) := by
  refine ⟨?_, ?_, fun todos => rfl, ?_, ?_, ?_⟩
  · intro todos
    refine ⟨List.filter_sublist todos, ?_, ?_⟩
    · intro t ht
      have := (List.mem_filter.mp ht).2
      simpa using this
    · intro t ht hc
      exact List.mem_filter.mpr ⟨ht, by simp [hc]⟩
  · intro todos
    refine ⟨List.filter_sublist todos, ?_, ?_⟩
    · intro t ht
      exact (List.mem_filter.mp ht).2
    · intro t ht hc
      exact List.mem_filter.mpr ⟨ht, hc⟩
  · intro q posts
    unfold renderPostsList
    split
    · exact List.filter_sublist posts
    · exact List.Sublist.refl posts
  · intro q posts p
    unfold renderPostsList
    by_cases h : q = ""
    · simp [h]
    · rw [if_pos (bne_iff_ne.mpr h)]
      simp [List.mem_filter, h]
  · intro s pat
    unfold jsIncludes
    exact decide_eq_true_iff

/-- C9 witness: concrete instances of the all filter and the substring
bridge. -/
theorem claim_C9_projectors_witness :
    getFilteredTodos "all" [] = []
    ∧ (jsIncludes "xabz" "ab" = true ↔ ("ab" : String).toList <:+: ("xabz" : String).toList) :=
  ⟨claim_C9_projectors.2.2.1 [], claim_C9_projectors.2.2.2.2.2 "xabz" "ab"⟩

/-- C10: mutating operations gated on the `confirm(...)` dialog, which the
spec does not mention: a declined dialog makes `deletePost` leave the
collection and storage untouched even when the id is present, and makes
`clearCompleted` with completed records present remove nothing (and show
no toast); an affirmative answer lets `deletePost` remove the matching
record and `clearCompleted` drop exactly the completed ones.  `deleteTodo`
itself takes no confirmation input and removes unconditionally (its
`confirm` sits in the DOM event handler, outside the method). -/
theorem claim_C10_confirm_gates :
    (∀ (b : Bool) (id : String) (s : BlogState), deletePost b false id s = (s, Except.ok ()))
    ∧ (∀ (id : String) (s : BlogState) (l₁ : List Post) (p : Post) (l₂ : List Post),
        s.posts = l₁ ++ p :: l₂ → (∀ u ∈ l₁, (u.id == id) = false) → (p.id == id) = true →
        deletePost false true id s = ({ posts := l₁ ++ l₂, storage := some (l₁ ++ l₂) }, Except.ok ()))
    ∧ (∀ (b : Bool) (s : TodoState), s.todos.any (fun t => t.completed) = true →
        clearCompleted b false s = (s, none))
    ∧ (∀ s : TodoState, s.todos.any (fun t => t.completed) = true →
        ((clearCompleted false true s).1).todos = s.todos.filter (fun t => !t.completed))
    ∧ (∀ (id : String) (s : TodoState) (l₁ : List Todo) (t : Todo) (l₂ : List Todo),
        s.todos = l₁ ++ t :: l₂ → (∀ u ∈ l₁, (u.id == id) = false) → (t.id == id) = true →
        deleteTodo false id s = { todos := l₁ ++ l₂, storage := some (l₁ ++ l₂) }) := by
  refine ⟨deletePost_declined, deletePost_found_confirmed, clearCompleted_declined, ?_,
    deleteTodo_found⟩
  intro s h
  rw [clearCompleted_confirmed s h]

/-- C10 witness: a declined dialog keeps the matching post, an affirmative
one removes it. -/
theorem claim_C10_confirm_gates_witness :
    deletePost false false "1" { posts := [{ id := "1", title := "T", content := "C", tags := [], excerpt := "C", createdAt := "c" }], storage := none } = ({ posts := [{ id := "1", title := "T", content := "C", tags := [], excerpt := "C", createdAt := "c" }], storage := none }, Except.ok ())
    ∧ deletePost false true "1" { posts := [{ id := "1", title := "T", content := "C", tags := [], excerpt := "C", createdAt := "c" }], storage := none } = ({ posts := [], storage := some [] }, Except.ok ()) :=
  ⟨claim_C10_confirm_gates.1 false "1"
      { posts := [{ id := "1", title := "T", content := "C", tags := [], excerpt := "C", createdAt := "c" }], storage := none },
   claim_C10_confirm_gates.2.1 "1"
      { posts := [{ id := "1", title := "T", content := "C", tags := [], excerpt := "C", createdAt := "c" }], storage := none }
      [] { id := "1", title := "T", content := "C", tags := [], excerpt := "C", createdAt := "c" } []
      rfl (by decide) (by decide)⟩
